import Mathlib

/-!
Verification of the EcoForge (Polymer-X) Committee Decision Engine.

This file shallowly embeds the engine implemented in
`web/src/services/geminiBridge.ts` and settles the frozen claims about it.

Modelling conventions:
* JavaScript numbers are modelled as exact rationals (`ℚ`); the engine's
  arithmetic (base scores, bonuses, `Math.round(x*100)/100`) stays on
  multiples of 1/100, where the rational model coincides with IEEE doubles
  after the two-decimal rounding the code performs.
* `new Date().toISOString()` is modelled by the constant `nowISO`; no claim
  depends on clock values.
* The Gemini remote interaction (`model.generateContent` plus the fenced
  code-block extraction and `JSON.parse`) is modelled by an oracle value of
  type `Except String EnzymeDesign`: `Except.ok d` stands for a run in which
  the remote call succeeded and the payload parsed to `d`; `Except.error e`
  stands for any throw inside the `try` block (transport failure or parse
  failure).  `JSON.parse` performs no schema validation, so the parsed
  design's `safety_lock_type` may be absent or hold any of the enum values;
  the field is therefore modelled as `Option SafetyLockType`.
* The three `await this.delay(...)` suspension points are latency only and
  are dropped; the `try/catch` of `runSimulatedDebate` is modelled with an
  explicit fault parameter `Option (SimPhase × String)` describing a runtime
  exception (with its message) raised during the named phase, before that
  phase's monologue push — exactly where a JS `TypeError` can arise when a
  type-erased caller passes malformed data.  `none` is the normal run.
* JS string formatting (`toFixed`, template literals) is abstracted by
  `toString` on rationals; no claim depends on the rendered numerals.
* The spec's mode names map onto the source's: LOCAL = `SIMULATION`,
  REMOTE = `LIVE`.
-/

namespace EcoForge

/-- The six contaminant classes (`PlasticType` union in the source). -/
inductive PlasticType
  | PET | HDPE | PVC | LDPE | PP | PS
deriving DecidableEq

/-- The five safety-lock (containment mechanism) tags (`SafetyLockType`). -/
inductive SafetyLockType
  | Quorum_Sensing_Type_A
  | Quorum_Sensing_Type_B
  | Temperature_Sensitive
  | Auxotrophic
  | Light_Activated
deriving DecidableEq

/-- The chassis thermal/osmotic classes (`ChassisType`). -/
inductive ChassisType
  | Halophilic | Mesophilic | Thermophilic | Psychrophilic
deriving DecidableEq

/-- The three committee agent roles. -/
inductive Agent
  | ARCHITECT | SAFETY_OFFICER | SIMULATOR
deriving DecidableEq

/-- Execution mode of an envelope (`'LIVE' | 'SIMULATION'` in the source). -/
inductive Mode
  | LIVE | SIMULATION
deriving DecidableEq

/-- Descriptor `WaterAnalysis`: the engine's input. -/
structure WaterAnalysis where
  lat : ℚ
  lng : ℚ
  salinity : ℚ
  plastic_type : PlasticType
  stress_signal_bool : Bool
deriving DecidableEq

/-- Payload `EnzymeDesign`: the design carried by a success envelope.  The TS type
declares `safety_lock_type` as required, but on the live path the value comes
from an unvalidated `JSON.parse`, so at runtime it may be absent or hold any
tag; it is modelled as `Option SafetyLockType`. -/
structure EnzymeDesign where
  enzyme_name : String
  mutation_list : List String
  predicted_efficiency_score : ℚ
  safety_lock_type : Option SafetyLockType
  chassis_type : ChassisType
  design_rationale : String
  references : List String
deriving DecidableEq

/-- Record `MonologueEntry`: one audit-log entry. -/
structure MonologueEntry where
  agent : Agent
  timestamp : String
  thought : String
  decision : Option String
  rejected : Option Bool
  retry_reason : Option String
deriving DecidableEq

/-- Envelope `CommitteeBioAgentResponse`: the engine's response. -/
structure CommitteeBioAgentResponse where
  success : Bool
  data : Option EnzymeDesign
  error : Option String
  timestamp : String
  internal_monologue : List MonologueEntry
  mode : Mode
deriving DecidableEq

/-- One row of the `ORGANISM_CHASSIS` table. -/
structure OrganismInfo where
  organism : String
  description : String
deriving DecidableEq

/-- One row of the `ENZYME_CONFIG` table. -/
structure EnzymeConfig where
  base : String
  mutations : List String
deriving DecidableEq

/-- The static `ORGANISM_CHASSIS` lookup table. -/
def ORGANISM_CHASSIS : PlasticType → OrganismInfo
  | .PET => ⟨"Ideonella sakaiensis", "Native PETase producer, optimal for PET degradation"⟩
  | .HDPE => ⟨"Pseudomonas putida", "Robust chassis for hydrocarbon degradation pathways"⟩
  | .PVC => ⟨"Sphingomonas sp.", "Known for chlorinated compound metabolism"⟩
  | .LDPE => ⟨"Rhodococcus ruber", "Alkane-degrading actinobacterium"⟩
  | .PP => ⟨"Aspergillus tubingensis", "Fungal chassis with strong cutinase expression"⟩
  | .PS => ⟨"Exiguobacterium sp.", "Psychrotolerant styrene degrader"⟩

/-- The static `ENZYME_CONFIG` lookup table. -/
def ENZYME_CONFIG : PlasticType → EnzymeConfig
  | .PET => ⟨"PETase", ["S238F", "W159H", "S280A"]⟩
  | .HDPE => ⟨"LacCase-HD", ["T241M", "G352V"]⟩
  | .PVC => ⟨"HaloHyd-VC", ["C127S", "L89F"]⟩
  | .LDPE => ⟨"AlkB-LDPE", ["W55L", "F181Y"]⟩
  | .PP => ⟨"CutinasePP", ["L117F", "S141G"]⟩
  | .PS => ⟨"StyreneOx", ["M108L", "H223Y"]⟩

/-- String value of a `PlasticType` union member. -/
def plasticName : PlasticType → String
  | .PET => "PET"
  | .HDPE => "HDPE"
  | .PVC => "PVC"
  | .LDPE => "LDPE"
  | .PP => "PP"
  | .PS => "PS"

/-- String value of a `SafetyLockType` member; an absent optional field
stringifies to "undefined" in a JS template literal. -/
def safetyLockName : Option SafetyLockType → String
  | none => "undefined"
  | some .Quorum_Sensing_Type_A => "Quorum_Sensing_Type_A"
  | some .Quorum_Sensing_Type_B => "Quorum_Sensing_Type_B"
  | some .Temperature_Sensitive => "Temperature_Sensitive"
  | some .Auxotrophic => "Auxotrophic"
  | some .Light_Activated => "Light_Activated"

/-- String value of a `ChassisType` member as a JS template literal renders
it. -/
def chassisName : ChassisType → String
  | .Halophilic => "Halophilic"
  | .Mesophilic => "Mesophilic"
  | .Thermophilic => "Thermophilic"
  | .Psychrophilic => "Psychrophilic"

/-- Constant standing in for `new Date().toISOString()`; the clock value is
irrelevant to every claim. -/
def nowISO : String := "1970-01-01T00:00:00.000Z"

/-- Abstraction of JS numeric rendering inside template literals. -/
def qstr (q : ℚ) : String := toString q

/-- JavaScript rounding `Math.round`: round half toward positive infinity. -/
def jsRound (q : ℚ) : ℤ := ⌊q + 1/2⌋

/-- Function `determineChassisType` from the source: salinity above 35 forces the
halophilic chassis, otherwise stress selects thermophilic, else mesophilic. -/
def determineChassisType (salinity : ℚ) (stress : Bool) : ChassisType :=
  if 35 < salinity then ChassisType.Halophilic
  else if stress then ChassisType.Thermophilic
  else ChassisType.Mesophilic

/-- Function `calculateEfficiencyScore` from the source: sequential mutation of a
`score` variable, then `Math.min(0.95, Math.round(score * 100) / 100)`. -/
def calculateEfficiencyScore (salinity : ℚ) (stress : Bool)
    (chassis : ChassisType) (mutationCount : ℕ) : ℚ :=
  let s0 : ℚ := 60/100
  let s1 : ℚ :=
    if (35 < salinity ∧ chassis = ChassisType.Halophilic) ∨
       (salinity ≤ 35 ∧ chassis ≠ ChassisType.Halophilic) then s0 + 15/100 else s0
  let s2 : ℚ := if stress = false then s1 + 10/100 else s1
  let s3 : ℚ := if stress = true ∧ chassis = ChassisType.Mesophilic then s2 - 10/100 else s2
  let s4 : ℚ := s3 + ((min mutationCount 3 : ℕ) : ℚ) * (5/100)
  min (95/100) ((jsRound (s4 * 100) : ℚ) / 100)

/-- Structure `ArchitectProposal` from the source; `safety_lock_type` is optional and
is absent on the proposal the Architect builds. -/
structure ArchitectProposal where
  organism : String
  organism_description : String
  chassis_type : ChassisType
  enzyme_name : String
  mutation_list : List String
  rationale : String
  safety_lock_type : Option SafetyLockType
deriving DecidableEq

/-- Return type of `runArchitect`. -/
structure ArchitectResult where
  proposal : ArchitectProposal
  monologue : MonologueEntry
deriving DecidableEq

/-- Function `runArchitect` from the source: catalog lookups, chassis selection, and
one ARCHITECT monologue entry.  The proposal literal carries no
`safety_lock_type` field, so the optional field is `none`. -/
def runArchitect (input : WaterAnalysis) : ArchitectResult :=
  let organism := ORGANISM_CHASSIS input.plastic_type
  let enzymeConfig := ENZYME_CONFIG input.plastic_type
  let chassis := determineChassisType input.salinity input.stress_signal_bool
  let chassisSuffix :=
    if chassis = ChassisType.Halophilic then "-Halo"
    else if chassis = ChassisType.Thermophilic then "-Thermo" else ""
  let proposal : ArchitectProposal :=
    { organism := organism.organism
      organism_description := organism.description
      chassis_type := chassis
      enzyme_name := enzymeConfig.base ++ "-v4.2" ++ chassisSuffix
      mutation_list := enzymeConfig.mutations
      rationale := "Selected " ++ organism.organism ++ " as chassis organism (" ++
        organism.description ++ "). Environmental analysis: salinity=" ++
        qstr input.salinity ++ "ppt, stress=" ++
        (if input.stress_signal_bool then "true" else "false") ++
        ". Applying " ++ chassisName chassis ++ " expression system."
      safety_lock_type := none }
  let monologue : MonologueEntry :=
    { agent := Agent.ARCHITECT
      timestamp := nowISO
      thought := "Analyzing water sample at (" ++ qstr input.lat ++ ", " ++
        qstr input.lng ++ "). Detected " ++ plasticName input.plastic_type ++
        " contamination. Salinity: " ++ qstr input.salinity ++ "ppt. Stress signals: " ++
        (if input.stress_signal_bool then "PRESENT" else "absent") ++ "."
      decision := some ("Proposing " ++ organism.organism ++ " chassis with " ++
        enzymeConfig.base ++ " enzyme. Expression system: " ++ chassisName chassis ++
        ". Mutations: " ++ String.intercalate ", " enzymeConfig.mutations ++ ".")
      rejected := none
      retry_reason := none }
  ⟨proposal, monologue⟩

/-- Return type of `runSafetyOfficer`. -/
structure SafetyResult where
  approved : Bool
  correctedProposal : ArchitectProposal
  monologue : MonologueEntry
deriving DecidableEq

/-- Function `runSafetyOfficer` from the source: rejects (with a corrected copy
carrying the mandatory tag and a retry reason) unless the proposal already
carries `Quorum_Sensing_Type_B`; otherwise approves with the proposal
unchanged.  Pure: the input proposal is never mutated. -/
def runSafetyOfficer (proposal : ArchitectProposal) : SafetyResult :=
  let hasSafetyLock : Bool :=
    proposal.safety_lock_type = some SafetyLockType.Quorum_Sensing_Type_B
  if !hasSafetyLock then
    let correctedProposal : ArchitectProposal :=
      { proposal with safety_lock_type := some SafetyLockType.Quorum_Sensing_Type_B }
    { approved := false
      correctedProposal := correctedProposal
      monologue :=
        { agent := Agent.SAFETY_OFFICER
          timestamp := nowISO
          thought := "Reviewing proposal for " ++ proposal.organism ++
            ". Checking safety constraints from docs/LOGIC.md..."
          decision := some "REJECTED - Architect proposal lacks Quorum_Sensing_Type_B lock!"
          rejected := some true
          retry_reason := some ("Forcing retry with mandatory safety lock. " ++
            "Zhang et al. 2025 requires Quorum_Sensing_Type_B for all engineered organisms.") } }
  else
    { approved := true
      correctedProposal := proposal
      monologue :=
        { agent := Agent.SAFETY_OFFICER
          timestamp := nowISO
          thought := "Reviewing proposal for " ++ proposal.organism ++
            ". Verifying Zhang et al. 2025 compliance..."
          decision := some "APPROVED - All safety constraints satisfied. Quorum_Sensing_Type_B verified."
          rejected := none
          retry_reason := none } }

/-- Return type of `runSimulator`. -/
structure SimulatorResult where
  efficiency : ℚ
  monologue : MonologueEntry
deriving DecidableEq

/-- Function `runSimulator` from the source: scores the (possibly corrected) proposal
and reports a qualitative band plus a derived confidence. -/
def runSimulator (proposal : ArchitectProposal) (input : WaterAnalysis) : SimulatorResult :=
  let efficiencyScore := calculateEfficiencyScore input.salinity
    input.stress_signal_bool proposal.chassis_type proposal.mutation_list.length
  let envMatch : String :=
    if 85/100 ≤ efficiencyScore then "OPTIMAL"
    else if 70/100 ≤ efficiencyScore then "SUBOPTIMAL" else "MARGINAL"
  let c0 : ℚ := 85/100
  let c1 : ℚ := if input.stress_signal_bool then c0 - 15/100 else c0
  let c2 : ℚ := if 40 < input.salinity then c1 - 10/100 else c1
  let confidence : ℚ := max (50/100) ((jsRound (c2 * 100) : ℚ) / 100)
  { efficiency := efficiencyScore
    monologue :=
      { agent := Agent.SIMULATOR
        timestamp := nowISO
        thought := "Running Evo 2 efficiency simulation for " ++ proposal.enzyme_name ++
          ". Base chassis: " ++ chassisName proposal.chassis_type ++
          ". Environmental parameters: salinity=" ++
          qstr input.salinity ++ "ppt, stress=" ++
          (if input.stress_signal_bool then "true" else "false") ++ "."
        decision := some ("Prediction complete. Efficiency: " ++
          qstr (efficiencyScore * 100) ++ "% (" ++ envMatch ++ "). Confidence: " ++
          qstr (confidence * 100) ++ "%. Model ready for deployment recommendation.")
        rejected := none
        retry_reason := none } }

/-- Phase of the local pipeline in which an injected runtime fault is
raised (before that phase's monologue push), modelling the `try/catch`. -/
inductive SimPhase
  | architect | safety | simulator
deriving DecidableEq

/-- The synthetic ARCHITECT retry-acknowledgement entry pushed after a
Safety-Officer rejection. -/
def retryEntry : MonologueEntry :=
  { agent := Agent.ARCHITECT
    timestamp := nowISO
    thought := "Received rejection from Safety Officer. Acknowledging mandatory safety requirement."
    decision := some ("Retry accepted. Adding Quorum_Sensing_Type_B lock to proposal " ++
      "as required by Zhang et al. 2025.")
    rejected := none
    retry_reason := none }

/-- The failure envelope built by the `catch` block of `runSimulatedDebate`:
the caught message and whatever monologue entries were accumulated. -/
def failureEnvelope (msg : String) (monologue : List MonologueEntry) :
    CommitteeBioAgentResponse :=
  { success := false
    data := none
    error := some msg
    timestamp := nowISO
    internal_monologue := monologue
    mode := Mode.SIMULATION }

/-- Function `runSimulatedDebate` from the source.  `fault` injects a runtime
exception (with its message) in the named phase, mirroring the `try/catch`;
`none` is the normal, exception-free run.  Note the approved branch re-sets
the mandatory tag (idempotently) and the rejected branch uses the Safety
Officer's corrected proposal, so the assembled design always carries the
tag on this path. -/
def runSimulatedDebate (fault : Option (SimPhase × String)) (input : WaterAnalysis) :
    CommitteeBioAgentResponse :=
  match fault with
  | some (SimPhase.architect, msg) => failureEnvelope msg []
  | _ =>
    let a := runArchitect input
    let monologue1 := [a.monologue]
    match fault with
    | some (SimPhase.safety, msg) => failureEnvelope msg monologue1
    | _ =>
      let s := runSafetyOfficer a.proposal
      let monologue2 := monologue1 ++ [s.monologue]
      let finalProposal :=
        if s.approved then
          { a.proposal with safety_lock_type := some SafetyLockType.Quorum_Sensing_Type_B }
        else s.correctedProposal
      let monologue3 := if !s.approved then monologue2 ++ [retryEntry] else monologue2
      match fault with
      | some (SimPhase.simulator, msg) => failureEnvelope msg monologue3
      | _ =>
        let sim := runSimulator finalProposal input
        let monologue4 := monologue3 ++ [sim.monologue]
        let design : EnzymeDesign :=
          { enzyme_name := finalProposal.enzyme_name
            mutation_list := finalProposal.mutation_list
            predicted_efficiency_score := sim.efficiency
            safety_lock_type := finalProposal.safety_lock_type
            chassis_type := finalProposal.chassis_type
            design_rationale := "[COMMITTEE CONSENSUS] Organism: " ++ finalProposal.organism ++
              " (" ++ finalProposal.organism_description ++ "). " ++ finalProposal.rationale ++
              " Safety: " ++ safetyLockName finalProposal.safety_lock_type ++
              " verified. Simulation: " ++ qstr (sim.efficiency * 100) ++ "% efficiency."
            references :=
              ["Lee et al. 2025 - Halophilic Enzyme Expression in Marine Bioremediation",
               "Zhang et al. 2025 - Engineered Quorum Sensing Kill Switches for Synthetic Biology Containment"] }
        { success := true
          data := some design
          error := none
          timestamp := nowISO
          internal_monologue := monologue4
          mode := Mode.SIMULATION }

/-- The ARCHITECT entry `unshift`ed onto the fallback envelope when the
remote call fails. -/
def fallbackEntry : MonologueEntry :=
  { agent := Agent.ARCHITECT
    timestamp := nowISO
    thought := "Gemini API call failed. Falling back to local simulation."
    decision := some "Switching to deterministic mode."
    rejected := none
    retry_reason := none }

/-- Function `runLiveDebate` from the source.  `remote` is the oracle for the Gemini
call plus payload parsing (see the file header).  On success the parsed
design is returned verbatim in a LIVE success envelope — the Safety Officer
entry only logs WARNING text when the tag is wrong, it does not correct.  On
any throw, the full local pipeline runs and one `fallbackEntry` is
prepended; the ARCHITECT entry pushed before the remote call is discarded
because the fallback envelope's monologue replaces the local array. -/
def runLiveDebate (remote : Except String EnzymeDesign)
    (fault : Option (SimPhase × String)) (input : WaterAnalysis) :
    CommitteeBioAgentResponse :=
  match remote with
  | Except.ok design =>
    let m1 : MonologueEntry :=
      { agent := Agent.ARCHITECT
        timestamp := nowISO
        thought := "Analyzing water sample at (" ++ qstr input.lat ++ ", " ++
          qstr input.lng ++ "). Detected " ++ plasticName input.plastic_type ++
          " contamination. Salinity: " ++ qstr input.salinity ++ "ppt. Stress signals: " ++
          (if input.stress_signal_bool then "PRESENT" else "absent") ++ "."
        decision := some "Consulting Gemini AI for optimal enzyme design..."
        rejected := none
        retry_reason := none }
    let m2 : MonologueEntry :=
      { agent := Agent.SAFETY_OFFICER
        timestamp := nowISO
        thought := "Reviewing Gemini-generated design. Verifying Zhang et al. 2025 compliance..."
        decision := some
          (if design.safety_lock_type = some SafetyLockType.Quorum_Sensing_Type_B then
            "APPROVED - Quorum_Sensing_Type_B verified."
          else "WARNING - Safety lock may need review.")
        rejected := none
        retry_reason := none }
    let m3 : MonologueEntry :=
      { agent := Agent.SIMULATOR
        timestamp := nowISO
        thought := "Validating efficiency prediction from Gemini..."
        decision := some ("Efficiency: " ++ qstr (design.predicted_efficiency_score * 100) ++
          "%. Design validated.")
        rejected := none
        retry_reason := none }
    { success := true
      data := some design
      error := none
      timestamp := nowISO
      internal_monologue := [m1, m2, m3]
      mode := Mode.LIVE }
  | Except.error _ =>
    let fallback := runSimulatedDebate fault input
    { fallback with internal_monologue := fallbackEntry :: fallback.internal_monologue }

/-- Function `runCommitteeDebate` from the source: dispatch on `this.genAI`.  The
`genAI` parameter models both whether an API key configured a backend
(`some` vs `none`) and, when it did, the outcome of the remote interaction. -/
def runCommitteeDebate (genAI : Option (Except String EnzymeDesign))
    (fault : Option (SimPhase × String)) (input : WaterAnalysis) :
    CommitteeBioAgentResponse :=
  match genAI with
  | some remote => runLiveDebate remote fault input
  | none => runSimulatedDebate fault input

/-- Rounding to two decimal places with the JS rounding rule. -/
def roundTo2 (q : ℚ) : ℚ := (jsRound (q * 100) : ℚ) / 100

/-- Reference scorer written from the specification text (§4.4): a sum of
independent additive terms, clamped to the 0.95 ceiling and rounded to two
decimal places.  This is the spec side of the refinement claim about
`calculateEfficiencyScore`; it is deliberately built from the spec sentence,
not from the source. -/
def specEfficiencyScore (salinity : ℚ) (stress : Bool)
    (chassis : ChassisType) (mutationCount : ℕ) : ℚ :=
  let base : ℚ := 60/100
  let consistency : ℚ :=
    if (35 < salinity ∧ chassis = ChassisType.Halophilic) ∨
       (salinity ≤ 35 ∧ chassis ≠ ChassisType.Halophilic) then 15/100 else 0
  let stressBonus : ℚ := if stress = false then 10/100 else 0
  let doublePenalty : ℚ := if stress = true ∧ chassis = ChassisType.Mesophilic then 10/100 else 0
  let mutationBonus : ℚ := ((min mutationCount 3 : ℕ) : ℚ) * (5/100)
  roundTo2 (min (95/100) (base + consistency + stressBonus - doublePenalty + mutationBonus))

/-- Verification helper: the pre-rounding score of `calculateEfficiencyScore`
scaled by 100, as an integer. -/
def scoreInt (salinity : ℚ) (stress : Bool) (chassis : ChassisType) (m : ℕ) : ℤ :=
  60 +
    (if (35 < salinity ∧ chassis = ChassisType.Halophilic) ∨
        (salinity ≤ 35 ∧ chassis ≠ ChassisType.Halophilic) then 15 else 0) +
    (if stress = false then 10 else 0) -
    (if stress = true ∧ chassis = ChassisType.Mesophilic then 10 else 0) +
    5 * ((min m 3 : ℕ) : ℤ)

/-- The end-to-end example descriptor of spec §8:
`{lat: 32.0, lng: -145.0, salinity: 35.5, contaminant: PET, stress: true}`. -/
def d0 : WaterAnalysis :=
  { lat := 32, lng := -145, salinity := 71/2, plastic_type := PlasticType.PET
    stress_signal_bool := true }

/-- A descriptor with out-of-range coordinates (latitude 200, longitude 300). -/
def dOutOfRange : WaterAnalysis :=
  { lat := 200, lng := 300, salinity := 36, plastic_type := PlasticType.PET
    stress_signal_bool := false }

/-- A remote design whose containment tag is corrupted to a non-mandatory
value, as an unvalidated `JSON.parse` can produce on the live path. -/
def corruptedRemoteDesign : EnzymeDesign :=
  { enzyme_name := "PETase-v4.2"
    mutation_list := ["S238F", "W159H", "S280A"]
    predicted_efficiency_score := 9/10
    safety_lock_type := some SafetyLockType.Auxotrophic
    chassis_type := ChassisType.Halophilic
    design_rationale := "remote-generated design"
    references := [] }

/-- A remote design whose containment tag is omitted entirely. -/
def omittedRemoteDesign : EnzymeDesign :=
  { corruptedRemoteDesign with safety_lock_type := none }

/-- Witness proposal without a containment tag. -/
def pNoLock : ArchitectProposal :=
  { organism := "Ideonella sakaiensis"
    organism_description := "Native PETase producer, optimal for PET degradation"
    chassis_type := ChassisType.Mesophilic
    enzyme_name := "PETase-v4.2"
    mutation_list := ["S238F", "W159H", "S280A"]
    rationale := "witness proposal"
    safety_lock_type := none }

/-- Witness proposal carrying a wrong containment tag. -/
def pWrongLock : ArchitectProposal :=
  { pNoLock with safety_lock_type := some SafetyLockType.Auxotrophic }

/-- Witness proposal already carrying the mandatory containment tag. -/
def pGoodLock : ArchitectProposal :=
  { pNoLock with safety_lock_type := some SafetyLockType.Quorum_Sensing_Type_B }

/-! Helper lemmas used by several claim theorems. -/

/-- Rounding fixes integers. -/
lemma jsRound_intCast (n : ℤ) : jsRound (n : ℚ) = n := by
  unfold jsRound
  rw [add_comm, Int.floor_add_int]
  norm_num

/-- The source scorer in closed form: the clamped integer score over 100. -/
lemma calculateEfficiencyScore_eq (s : ℚ) (st : Bool) (ch : ChassisType) (m : ℕ) :
    calculateEfficiencyScore s st ch m = min (95/100 : ℚ) ((scoreInt s st ch m : ℚ) / 100) := by
  simp only [calculateEfficiencyScore]
  have harg :
      ((((if (35 < s ∧ ch = ChassisType.Halophilic) ∨ (s ≤ 35 ∧ ch ≠ ChassisType.Halophilic)
            then (60:ℚ)/100 + 15/100 else 60/100) |>
          fun s1 => if st = false then s1 + 10/100 else s1) |>
          fun s2 => if st = true ∧ ch = ChassisType.Mesophilic then s2 - 10/100 else s2) +
          ((min m 3 : ℕ) : ℚ) * (5/100)) * 100 = ((scoreInt s st ch m : ℤ) : ℚ) := by
    unfold scoreInt
    push_cast
    split_ifs <;> ring
  simp only at harg
  rw [harg, jsRound_intCast]

/-- The spec scorer in the same closed form. -/
lemma specEfficiencyScore_eq (s : ℚ) (st : Bool) (ch : ChassisType) (m : ℕ) :
    specEfficiencyScore s st ch m = min (95/100 : ℚ) ((scoreInt s st ch m : ℚ) / 100) := by
  simp only [specEfficiencyScore, roundTo2]
  have harg : ((60:ℚ)/100 +
      (if (35 < s ∧ ch = ChassisType.Halophilic) ∨ (s ≤ 35 ∧ ch ≠ ChassisType.Halophilic)
        then (15:ℚ)/100 else 0) +
      (if st = false then (10:ℚ)/100 else 0) -
      (if st = true ∧ ch = ChassisType.Mesophilic then (10:ℚ)/100 else 0) +
      ((min m 3 : ℕ) : ℚ) * (5/100)) = ((scoreInt s st ch m : ℤ) : ℚ) / 100 := by
    unfold scoreInt
    push_cast
    split_ifs <;> ring
  rw [harg]
  rcases le_total ((scoreInt s st ch m : ℚ) / 100) (95/100) with h | h
  · rw [min_eq_right h, div_mul_cancel₀ _ (by norm_num : (100:ℚ) ≠ 0), jsRound_intCast]
  · rw [min_eq_left h]
    norm_num [jsRound]

/-- Bounds on the integer score. -/
lemma scoreInt_bounds (s : ℚ) (st : Bool) (ch : ChassisType) (m : ℕ) :
    50 ≤ scoreInt s st ch m ∧ scoreInt s st ch m ≤ 100 := by
  have hm : min m 3 ≤ 3 := min_le_right m 3
  unfold scoreInt
  split_ifs <;> omega

/-! Claim-specific helper lemmas and the claim theorems. -/

lemma simulated_success (input : WaterAnalysis) : (runSimulatedDebate none input).success = true := rfl

lemma simulated_mode (input : WaterAnalysis) : (runSimulatedDebate none input).mode = Mode.SIMULATION := rfl

lemma simulated_lock (input : WaterAnalysis) :
    (runSimulatedDebate none input).data.bind (fun d => d.safety_lock_type) =
      some SafetyLockType.Quorum_Sensing_Type_B := rfl

lemma simulated_chassis (input : WaterAnalysis) :
    (runSimulatedDebate none input).data.map (fun d => d.chassis_type) =
      some (determineChassisType input.salinity input.stress_signal_bool) := rfl

lemma simulated_score (input : WaterAnalysis) :
    (runSimulatedDebate none input).data.map (fun d => d.predicted_efficiency_score) =
      some (calculateEfficiencyScore input.salinity input.stress_signal_bool
        (determineChassisType input.salinity input.stress_signal_bool)
        (ENZYME_CONFIG input.plastic_type).mutations.length) := rfl

lemma simulated_agents (input : WaterAnalysis) :
    (runSimulatedDebate none input).internal_monologue.map
        (fun e => (e.agent, e.rejected, e.retry_reason.isSome)) =
      [(Agent.ARCHITECT, none, false), (Agent.SAFETY_OFFICER, some true, true),
       (Agent.ARCHITECT, none, false), (Agent.SIMULATOR, none, false)] := rfl

lemma chassis_at_d0 : determineChassisType (71/2) true = ChassisType.Halophilic := by
  unfold determineChassisType
  rw [if_pos (by norm_num : (35:ℚ) < 71/2)]

lemma score_at_d0 : calculateEfficiencyScore (71/2) true ChassisType.Halophilic 3 = 9/10 := by
  rw [calculateEfficiencyScore_eq]
  have h : scoreInt (71/2) true ChassisType.Halophilic 3 = 90 := by
    unfold scoreInt
    rw [if_pos (Or.inl ⟨by norm_num, rfl⟩), if_neg (by simp), if_neg (by simp)]
    norm_num
  rw [h, min_eq_right (by norm_num)]
  norm_num

/-- C2: the chassis selector returns Halophilic whenever salinity > 35
regardless of stress, Thermophilic when salinity ≤ 35 and stress holds, and
Mesophilic when salinity ≤ 35 and stress is absent; it is a pure total
function of its two arguments. -/
theorem C2_chassis_selector (salinity : ℚ) (stress : Bool) :
    (35 < salinity → determineChassisType salinity stress = ChassisType.Halophilic) ∧
    (salinity ≤ 35 → stress = true → determineChassisType salinity stress = ChassisType.Thermophilic) ∧
    (salinity ≤ 35 → stress = false → determineChassisType salinity stress = ChassisType.Mesophilic) := by
  refine ⟨fun h => ?_, fun h hs => ?_, fun h hs => ?_⟩
  · simp [determineChassisType, h]
  · simp [determineChassisType, not_lt.mpr h, hs]
  · simp [determineChassisType, not_lt.mpr h, hs]

/-- Witness for C2 at concrete salinity values 36 and 35. -/
theorem C2_chassis_selector_witness :
    determineChassisType 36 true = ChassisType.Halophilic ∧
    determineChassisType 35 true = ChassisType.Thermophilic ∧
    determineChassisType 35 false = ChassisType.Mesophilic :=
  ⟨(C2_chassis_selector 36 true).1 (by norm_num),
   (C2_chassis_selector 35 true).2.1 le_rfl rfl,
   (C2_chassis_selector 35 false).2.2 le_rfl rfl⟩

/-- C3: the source scorer agrees with the reference definition assembled
from the spec text for every salinity, stress flag, chassis and mutation
count. -/
theorem C3_scorer_matches_spec (salinity : ℚ) (stress : Bool)
    (chassis : ChassisType) (mutationCount : ℕ) :
    calculateEfficiencyScore salinity stress chassis mutationCount =
      specEfficiencyScore salinity stress chassis mutationCount := by
  rw [calculateEfficiencyScore_eq, specEfficiencyScore_eq]

/-- C4 counterexample: an inconsistent Mesophilic chassis at salinity 36
with stress and zero mutations scores 0.50, strictly below the claimed
lower bound 0.60. -/
theorem C4_counterexample :
    calculateEfficiencyScore 36 true ChassisType.Mesophilic 0 < 60/100 := by
  rw [calculateEfficiencyScore_eq]
  have h : scoreInt 36 true ChassisType.Mesophilic 0 = 50 := by
    unfold scoreInt
    rw [if_neg (show ¬((35:ℚ) < 36 ∧ ChassisType.Mesophilic = ChassisType.Halophilic ∨
          (36:ℚ) ≤ 35 ∧ ChassisType.Mesophilic ≠ ChassisType.Halophilic) from by
        rintro (⟨-, h⟩ | ⟨h, -⟩)
        · exact ChassisType.noConfusion h
        · norm_num at h),
      if_neg (show ¬(true = false) from by simp),
      if_pos (show true = true ∧ ChassisType.Mesophilic = ChassisType.Mesophilic from ⟨rfl, rfl⟩)]
    norm_num
  rw [h, min_eq_right (by norm_num)]
  norm_num

/-- C4 amended: the scorer's output lies within [0.50, 0.95] for every
combination of salinity, stress, chassis and mutation count. -/
theorem C4_score_bounds (salinity : ℚ) (stress : Bool)
    (chassis : ChassisType) (m : ℕ) :
    1/2 ≤ calculateEfficiencyScore salinity stress chassis m ∧
    calculateEfficiencyScore salinity stress chassis m ≤ 95/100 := by
  obtain ⟨h1, h2⟩ := scoreInt_bounds salinity stress chassis m
  rw [calculateEfficiencyScore_eq]
  have hc : (50:ℚ) ≤ ((scoreInt salinity stress chassis m : ℤ) : ℚ) := by exact_mod_cast h1
  exact ⟨le_min (by norm_num) (by linarith), min_le_left _ _⟩

/-- C5 counterexample: at the example descriptor the local pipeline's
chassis is Halophilic, not the heat-tolerant Thermophilic the claim
asserts (35.5 > 35 forces the salt-tolerant chassis). -/
theorem C5_counterexample :
    (runSimulatedDebate none d0).data.map (fun d => d.chassis_type) ≠
      some ChassisType.Thermophilic := by
  rw [simulated_chassis, show d0.salinity = 71/2 from rfl,
    show d0.stress_signal_bool = true from rfl, chassis_at_d0]
  simp

/-- C5 amended: at the example descriptor the local pipeline selects the
salt-tolerant Halophilic chassis (salinity 35.5 > 35), scores 0.90, and
returns a success envelope in local mode with the mandatory containment
tag present. -/
theorem C5_end_to_end_example :
    (runSimulatedDebate none d0).success = true ∧
    (runSimulatedDebate none d0).mode = Mode.SIMULATION ∧
    (runSimulatedDebate none d0).data.map (fun d => d.chassis_type) =
      some ChassisType.Halophilic ∧
    (runSimulatedDebate none d0).data.map (fun d => d.predicted_efficiency_score) =
      some (9/10) ∧
    (runSimulatedDebate none d0).data.bind (fun d => d.safety_lock_type) =
      some SafetyLockType.Quorum_Sensing_Type_B := by
  refine ⟨rfl, rfl, ?_, ?_, rfl⟩
  · rw [simulated_chassis, show d0.salinity = 71/2 from rfl,
      show d0.stress_signal_bool = true from rfl, chassis_at_d0]
  · rw [simulated_score, show d0.salinity = 71/2 from rfl,
      show d0.stress_signal_bool = true from rfl,
      show d0.plastic_type = PlasticType.PET from rfl, chassis_at_d0,
      show (ENZYME_CONFIG PlasticType.PET).mutations.length = 3 from rfl, score_at_d0]

/-- C6: the Safety Validator rejects any proposal not already carrying the
mandatory tag (absent or different value), returning a corrected copy whose
tag is the mandatory value together with a rejection entry carrying a retry
reason; a proposal already carrying the mandatory tag is approved and
returned unchanged.  The function is pure, so the input proposal is never
mutated in any case. -/
theorem C6_safety_validator (p : ArchitectProposal) :
    (p.safety_lock_type ≠ some SafetyLockType.Quorum_Sensing_Type_B →
      (runSafetyOfficer p).approved = false ∧
      (runSafetyOfficer p).correctedProposal =
        { p with safety_lock_type := some SafetyLockType.Quorum_Sensing_Type_B } ∧
      (runSafetyOfficer p).monologue.rejected = some true ∧
      (runSafetyOfficer p).monologue.retry_reason.isSome = true) ∧
    (p.safety_lock_type = some SafetyLockType.Quorum_Sensing_Type_B →
      (runSafetyOfficer p).approved = true ∧
      (runSafetyOfficer p).correctedProposal = p ∧
      (runSafetyOfficer p).monologue.rejected = none) := by
  constructor
  · intro h
    simp [runSafetyOfficer, h]
  · intro h
    simp [runSafetyOfficer, h]

/-- Witness for C6 on concrete proposals: tag absent, tag wrong, tag
already mandatory. -/
theorem C6_safety_validator_witness :
    ((runSafetyOfficer pNoLock).approved = false ∧
      (runSafetyOfficer pNoLock).correctedProposal =
        { pNoLock with safety_lock_type := some SafetyLockType.Quorum_Sensing_Type_B }) ∧
    (runSafetyOfficer pWrongLock).approved = false ∧
    (runSafetyOfficer pGoodLock).approved = true ∧
    (runSafetyOfficer pGoodLock).correctedProposal = pGoodLock := by
  have h1 := (C6_safety_validator pNoLock).1 (by simp [pNoLock])
  have h2 := (C6_safety_validator pWrongLock).1 (by simp [pWrongLock, pNoLock])
  have h3 := (C6_safety_validator pGoodLock).2 (by simp [pGoodLock, pNoLock])
  exact ⟨⟨h1.1, h1.2.1⟩, h2.1, h3.1, h3.2.1⟩

/-- C7: when the remote call (or payload parsing) throws, the engine
returns exactly the local pipeline's envelope — success, local mode — with
one ARCHITECT fallback entry prepended to its monologue; the failure is
never surfaced as a failure envelope (success stays true, error stays
absent) nor thrown.  Local mode is `SIMULATION` in the source. -/
theorem C7_remote_failure_fallback (e : String) (input : WaterAnalysis) :
    (runLiveDebate (Except.error e) none input).success = true ∧
    (runLiveDebate (Except.error e) none input).mode = Mode.SIMULATION ∧
    (runLiveDebate (Except.error e) none input).internal_monologue =
      fallbackEntry :: (runSimulatedDebate none input).internal_monologue ∧
    (runLiveDebate (Except.error e) none input).data = (runSimulatedDebate none input).data ∧
    (runLiveDebate (Except.error e) none input).error = none ∧
    fallbackEntry.agent = Agent.ARCHITECT :=
  ⟨rfl, rfl, rfl, rfl, rfl, rfl⟩

/-- C8 counterexample: a reading with latitude 200 and longitude 300 —
far outside the stated ranges — is accepted by the engine: the pipeline
runs to completion and a normal success envelope with a four-entry
monologue is returned, contradicting a thrown `ValidationError` with no
envelope and no monologue. -/
theorem C8_counterexample :
    (runCommitteeDebate none none dOutOfRange).success = true ∧
    (runCommitteeDebate none none dOutOfRange).error = none ∧
    (runCommitteeDebate none none dOutOfRange).internal_monologue.length = 4 :=
  ⟨rfl, rfl, rfl⟩

/-- C8 amended: the engine performs no runtime input validation and defines
no `ValidationError`: every descriptor — any coordinates, any salinity —
is processed by the normal pipeline and yields a success envelope with a
full monologue; no fault crosses the engine boundary. -/
theorem C8_no_input_validation (input : WaterAnalysis) :
    (runCommitteeDebate none none input).success = true ∧
    (runCommitteeDebate none none input).error = none ∧
    (runCommitteeDebate none none input).internal_monologue.length = 4 :=
  ⟨rfl, rfl, rfl⟩

/-- C9 counterexample: a fault caught during the first (Architect) phase —
possible when a type-erased caller passes malformed data, since the catalog
lookup then yields `undefined` and the phase throws before its monologue
push — produces a failure envelope whose monologue is empty, contradicting
the claimed length ≥ 1. -/
theorem C9_counterexample :
    (runSimulatedDebate
        (some (SimPhase.architect, "TypeError: Cannot read properties of undefined"))
        d0).success = false ∧
    (runSimulatedDebate
        (some (SimPhase.architect, "TypeError: Cannot read properties of undefined"))
        d0).internal_monologue.length = 0 :=
  ⟨rfl, rfl⟩

/-- C9 amended: every success envelope of `runCommitteeDebate` carries at
least one monologue entry — exactly three on a LIVE success, exactly four
on an exception-free local run, exactly five on a remote-failure fallback
run; a failure envelope carries only the entries accumulated before the
caught fault — none for a first-phase (Architect) fault, one for a fault
in the Safety phase, three for a fault in the Simulator phase — so the
length ≥ 1 guarantee holds for every success envelope but not for a
failure envelope produced by a first-phase fault. -/
theorem C9_monologue_lengths (genAI : Option (Except String EnzymeDesign))
    (fault : Option (SimPhase × String)) (input : WaterAnalysis) (msg : String)
    (design : EnzymeDesign) (e : String) :
    ((runCommitteeDebate genAI fault input).success = true →
      1 ≤ (runCommitteeDebate genAI fault input).internal_monologue.length) ∧
    ((runCommitteeDebate (some (Except.ok design)) none input).success = true ∧
      (runCommitteeDebate (some (Except.ok design)) none input).internal_monologue.length = 3) ∧
    ((runCommitteeDebate none none input).success = true ∧
      (runCommitteeDebate none none input).internal_monologue.length = 4) ∧
    ((runCommitteeDebate (some (Except.error e)) none input).success = true ∧
      (runCommitteeDebate (some (Except.error e)) none input).internal_monologue.length = 5) ∧
    ((runCommitteeDebate none (some (SimPhase.architect, msg)) input).success = false ∧
      (runCommitteeDebate none (some (SimPhase.architect, msg)) input).internal_monologue.length = 0) ∧
    ((runCommitteeDebate none (some (SimPhase.safety, msg)) input).success = false ∧
      (runCommitteeDebate none (some (SimPhase.safety, msg)) input).internal_monologue.length = 1) ∧
    ((runCommitteeDebate none (some (SimPhase.simulator, msg)) input).success = false ∧
      (runCommitteeDebate none (some (SimPhase.simulator, msg)) input).internal_monologue.length = 3) := by
  refine ⟨?_, ⟨rfl, rfl⟩, ⟨rfl, rfl⟩, ⟨rfl, rfl⟩, ⟨rfl, rfl⟩, ⟨rfl, rfl⟩, ⟨rfl, rfl⟩⟩
  rcases genAI with _ | remote
  · rcases fault with _ | ⟨phase, m⟩
    · intro _
      have h4 : (runCommitteeDebate none none input).internal_monologue.length = 4 := rfl
      omega
    · rcases phase with _ | _ | _ <;> intro h <;>
        exact Bool.noConfusion (show false = true from h)
  · rcases remote with e2 | d2
    · intro _
      have h5 : (runCommitteeDebate (some (Except.error e2)) fault input).internal_monologue =
          fallbackEntry :: (runSimulatedDebate fault input).internal_monologue := rfl
      rw [h5, List.length_cons]
      omega
    · intro _
      have h3 : (runCommitteeDebate (some (Except.ok d2)) fault input).internal_monologue.length = 3 := rfl
      omega

/-- Witness for C9 discharging the success hypothesis at a concrete local
run. -/
theorem C9_monologue_lengths_witness :
    1 ≤ (runCommitteeDebate none none d0).internal_monologue.length :=
  (C9_monologue_lengths none none d0 "TypeError" corruptedRemoteDesign "network error").1 rfl

/-- C10: the Architect's initial proposal never carries the safety lock, so
the Safety Officer rejects on every local run; every exception-free local
envelope is a success whose monologue is exactly ARCHITECT,
SAFETY_OFFICER (rejected with a retry reason), ARCHITECT (retry
acknowledgement), SIMULATOR — never a three-entry approval-only run. -/
theorem C10_local_always_retries (input : WaterAnalysis) :
    (runArchitect input).proposal.safety_lock_type = none ∧
    (runSafetyOfficer (runArchitect input).proposal).approved = false ∧
    (runSimulatedDebate none input).success = true ∧
    (runSimulatedDebate none input).internal_monologue.map
        (fun e => (e.agent, e.rejected, e.retry_reason.isSome)) =
      [(Agent.ARCHITECT, none, false), (Agent.SAFETY_OFFICER, some true, true),
       (Agent.ARCHITECT, none, false), (Agent.SIMULATOR, none, false)] :=
  ⟨rfl, rfl, rfl, simulated_agents input⟩

/-- C1: the live path trusts the remote design as-is: a success envelope in
LIVE mode can carry a corrupted containment tag (Auxotrophic) or no tag at
all, so the mandatory-tag invariant fails on the remote path even though
the code's own prompt mandates the tag on all designs. -/
theorem C1_live_path_trusts_remote_tag :
    (runCommitteeDebate (some (Except.ok corruptedRemoteDesign)) none d0).success = true ∧
    (runCommitteeDebate (some (Except.ok corruptedRemoteDesign)) none d0).mode = Mode.LIVE ∧
    (runCommitteeDebate (some (Except.ok corruptedRemoteDesign)) none d0).data.bind
        (fun d => d.safety_lock_type) = some SafetyLockType.Auxotrophic ∧
    (some SafetyLockType.Auxotrophic ≠ some SafetyLockType.Quorum_Sensing_Type_B) ∧
    (runCommitteeDebate (some (Except.ok omittedRemoteDesign)) none d0).success = true ∧
    (runCommitteeDebate (some (Except.ok omittedRemoteDesign)) none d0).data.bind
        (fun d => d.safety_lock_type) = none := by
  refine ⟨rfl, rfl, rfl, by simp, rfl, rfl⟩

end EcoForge
